import Mathlib

/-!
Shallow embedding of the daemyung/practice-vulkan repository.

Sources embedded:
- `vulkan-semaphore/app/src/main/cpp/VkRenderer.cpp`: the constructor
  (physical-device selection, queue-family selection, swapchain
  format/present-mode negotiation, object creation order), the destructor
  (object destruction order), and `VkRenderer::render` (the per-frame
  algorithm: clear-color animation, fence protocol, semaphore wiring).
- `hello-vulkan/app/src/main/cpp/main.cpp`: `motion_event_filter_func`.

Machine floats are idealized as exact rationals (`ℚ`); C `fmodf` is modelled
by its mathematical definition `x - y * trunc (x / y)`.
-/

/-! ## Clear-color animation (VkRenderer.cpp lines 467-469) -/

/-- Truncation of a rational toward zero, as C casts and `fmodf` truncate:
the integer quotient of numerator by denominator, rounded toward zero. -/
def qtrunc (x : ℚ) : ℤ := x.num.tdiv x.den

/-- Exact-arithmetic model of C `fmodf`: `fmodf x y = x - y * trunc (x / y)`
(the C standard's definition of `fmod`, with real instead of float
arithmetic). -/
def fmodf (x y : ℚ) : ℚ := x - y * (qtrunc (x / y) : ℚ)

/-- One clear-color channel update, VkRenderer.cpp line 468:
`mClearColorValue.float32[i] = fmodf(mClearColorValue.float32[i] + 0.01, 1.0)`. -/
def stepChannel (x : ℚ) : ℚ := fmodf (x + 1/100) 1

/-- The four `float32` channels of `mClearColorValue`. -/
def ClearColor := Fin 4 → ℚ

/-- VkRenderer.cpp lines 467-469: the loop `for (i = 0; i != 4; ++i)`
advancing every channel by the same rule. -/
def updateClearColor (c : ClearColor) : ClearColor := fun i => stepChannel (c i)

/-! ## The per-frame algorithm `VkRenderer::render` (VkRenderer.cpp lines 398-556) -/

/-- The two semaphores owned by the renderer: `mImageAcquisitionSemaphore`
and `mRenderCompletionSemaphore`. -/
inductive Sem
  | imageAcquisition
  | renderCompletion
deriving DecidableEq

/-- The fields of the `VkSubmitInfo` built in `render` (lines 530-539) that
name semaphores and command buffers. -/
structure SubmitInfo where
  waitSemaphoreCount : Nat
  waitSemaphores : List Sem
  commandBufferCount : Nat
  signalSemaphoreCount : Nat
  signalSemaphores : List Sem
deriving DecidableEq

/-- The fields of the `VkPresentInfoKHR` built in `render` (lines 546-553). -/
structure PresentInfo where
  waitSemaphoreCount : Nat
  waitSemaphores : List Sem
  swapchainCount : Nat
  imageIndices : List Nat
deriving DecidableEq

/-- The graphics API calls issued by `render`, in program order. -/
inductive REvent
  | acquireNextImage
  | waitForFences
  | resetFences
  | resetCommandBuffer
  | beginCommandBuffer
  | cmdPipelineBarrier
  | cmdClearColorImage
  | endCommandBuffer
  | queueSubmit
  | queuePresent
deriving DecidableEq

/-- Everything one call to `VkRenderer::render` produces in the embedding:
the updated clear color, the submit and present structures handed to the
driver, and the ordered trace of API calls issued. -/
structure RenderOutput where
  clearColor : ClearColor
  submitInfo : SubmitInfo
  presentInfo : PresentInfo
  events : List REvent

/-- The sequence of API calls `render` issues, transcribed from
VkRenderer.cpp lines 403, 414, 415, 420, 430, 453, 482, 510, 524, 541, 555. -/
def renderEvents : List REvent :=
  [REvent.acquireNextImage, REvent.waitForFences, REvent.resetFences,
   REvent.resetCommandBuffer, REvent.beginCommandBuffer,
   REvent.cmdPipelineBarrier, REvent.cmdClearColorImage,
   REvent.cmdPipelineBarrier, REvent.endCommandBuffer,
   REvent.queueSubmit, REvent.queuePresent]

/-- `VkRenderer::render` (lines 398-556). The image index returned by
`vkAcquireNextImageKHR` is supplied by the environment as
`swapchainImageIndex`. The submit info names `mImageAcquisitionSemaphore`
as sole wait semaphore and `mRenderCompletionSemaphore` as sole signal
semaphore (lines 530-539); the present info names
`mRenderCompletionSemaphore` as sole wait semaphore and the acquired index
as the image presented (lines 546-553). -/
def render (color : ClearColor) (swapchainImageIndex : Nat) : RenderOutput :=
  { clearColor := updateClearColor color
    submitInfo :=
      { waitSemaphoreCount := 1
        waitSemaphores := [Sem.imageAcquisition]
        commandBufferCount := 1
        signalSemaphoreCount := 1
        signalSemaphores := [Sem.renderCompletion] }
    presentInfo :=
      { waitSemaphoreCount := 1
        waitSemaphores := [Sem.renderCompletion]
        swapchainCount := 1
        imageIndices := [swapchainImageIndex] }
    events := renderEvents }

/-- Index of the first occurrence of an event in a trace. -/
def eventIdx (es : List REvent) (e : REvent) : Nat :=
  es.findIdx fun x => x == e

/-! ## Error checking (VkUtil.h macro and its call sites) -/

/-- One graphics API call site: its name, whether the call can return a
non-success `VkResult` (per the Vulkan prototypes used), and whether the
site wraps the call in `VK_CHECK_ERROR`. -/
structure ApiCall where
  name : String
  returnsStatus : Bool
  checked : Bool
deriving DecidableEq

/-- The API call sites of the constructor `VkRenderer::VkRenderer`
(VkRenderer.cpp lines 34-384), in program order. `vkCmdPipelineBarrier`
appears once per swapchain image (loop at lines 315-347); one entry stands
for the loop body since all iterations are identical call sites. -/
def constructorApiCalls : List ApiCall :=
  [⟨"vkEnumerateInstanceLayerProperties", true, true⟩,
   ⟨"vkEnumerateInstanceLayerProperties", true, true⟩,
   ⟨"vkEnumerateInstanceExtensionProperties", true, true⟩,
   ⟨"vkEnumerateInstanceExtensionProperties", true, true⟩,
   ⟨"vkCreateInstance", true, true⟩,
   ⟨"vkEnumeratePhysicalDevices", true, true⟩,
   ⟨"vkEnumeratePhysicalDevices", true, true⟩,
   ⟨"vkGetPhysicalDeviceProperties", false, false⟩,
   ⟨"vkGetPhysicalDeviceQueueFamilyProperties", false, false⟩,
   ⟨"vkGetPhysicalDeviceQueueFamilyProperties", false, false⟩,
   ⟨"vkEnumerateDeviceExtensionProperties", true, true⟩,
   ⟨"vkEnumerateDeviceExtensionProperties", true, true⟩,
   ⟨"vkCreateDevice", true, true⟩,
   ⟨"vkGetDeviceQueue", false, false⟩,
   ⟨"vkCreateAndroidSurfaceKHR", true, true⟩,
   ⟨"vkGetPhysicalDeviceSurfaceSupportKHR", true, true⟩,
   ⟨"vkGetPhysicalDeviceSurfaceCapabilitiesKHR", true, true⟩,
   ⟨"vkGetPhysicalDeviceSurfaceFormatsKHR", true, true⟩,
   ⟨"vkGetPhysicalDeviceSurfaceFormatsKHR", true, true⟩,
   ⟨"vkGetPhysicalDeviceSurfacePresentModesKHR", true, true⟩,
   ⟨"vkGetPhysicalDeviceSurfacePresentModesKHR", true, true⟩,
   ⟨"vkCreateSwapchainKHR", true, true⟩,
   ⟨"vkGetSwapchainImagesKHR", true, true⟩,
   ⟨"vkGetSwapchainImagesKHR", true, true⟩,
   ⟨"vkCreateCommandPool", true, true⟩,
   ⟨"vkAllocateCommandBuffers", true, true⟩,
   ⟨"vkBeginCommandBuffer", true, true⟩,
   ⟨"vkCmdPipelineBarrier", false, false⟩,
   ⟨"vkEndCommandBuffer", true, true⟩,
   ⟨"vkQueueSubmit", true, true⟩,
   ⟨"vkQueueWaitIdle", true, true⟩,
   ⟨"vkCreateFence", true, true⟩,
   ⟨"vkCreateSemaphore", true, true⟩,
   ⟨"vkCreateSemaphore", true, true⟩]

/-- The API call sites of `VkRenderer::render` (lines 398-556), in program
order. Note line 420: `vkResetCommandBuffer(mCommandBuffer, 0);` returns a
`VkResult` but is not wrapped in `VK_CHECK_ERROR`. -/
def renderApiCalls : List ApiCall :=
  [⟨"vkAcquireNextImageKHR", true, true⟩,
   ⟨"vkWaitForFences", true, true⟩,
   ⟨"vkResetFences", true, true⟩,
   ⟨"vkResetCommandBuffer", true, false⟩,
   ⟨"vkBeginCommandBuffer", true, true⟩,
   ⟨"vkCmdPipelineBarrier", false, false⟩,
   ⟨"vkCmdClearColorImage", false, false⟩,
   ⟨"vkCmdPipelineBarrier", false, false⟩,
   ⟨"vkEndCommandBuffer", true, true⟩,
   ⟨"vkQueueSubmit", true, true⟩,
   ⟨"vkQueuePresentKHR", true, true⟩]

/-- The API call sites of `VkRenderer::~VkRenderer` (lines 386-396); all
return `void`. -/
def destructorApiCalls : List ApiCall :=
  [⟨"vkDestroySemaphore", false, false⟩,
   ⟨"vkDestroySemaphore", false, false⟩,
   ⟨"vkDestroyFence", false, false⟩,
   ⟨"vkFreeCommandBuffers", false, false⟩,
   ⟨"vkDestroyCommandPool", false, false⟩,
   ⟨"vkDestroySwapchainKHR", false, false⟩,
   ⟨"vkDestroySurfaceKHR", false, false⟩,
   ⟨"vkDestroyDevice", false, false⟩,
   ⟨"vkDestroyInstance", false, false⟩]

/-- The diagnostic record a failed check emits. -/
structure FatalErrorLog where
  file : String
  line : Nat
  callExpression : String
  result : Int
deriving DecidableEq

/-- Modelled from the spec: the `VK_CHECK_ERROR` macro lives in `VkUtil.h`,
which is not present under src/ (only its call sites are). Per the spec,
the check is uniform: a non-success status from a wrapped call is fatal,
"logged with file/line/call-expression context, and terminates the process
immediately". `VK_SUCCESS` is `0`; a non-zero status produces the fatal
log and no continuation. -/
def vkCheckError (file : String) (line : Nat) (callExpression : String)
    (result : Int) : Except FatalErrorLog Unit :=
  if result = 0 then Except.ok ()
  else Except.error ⟨file, line, callExpression, result⟩

/-! ## Physical-device and queue-family selection (VkRenderer.cpp lines 90-173) -/

/-- `VK_QUEUE_GRAPHICS_BIT` = 0x1. -/
def VK_QUEUE_GRAPHICS_BIT : Nat := 1

/-- The `queueFlags` field of one `VkQueueFamilyProperties` entry. -/
structure QueueFamilyProperties where
  queueFlags : Nat
deriving DecidableEq

/-- One enumerated physical device, described by its queue families. -/
structure PhysicalDevice where
  queueFamilies : List QueueFamilyProperties
deriving DecidableEq

/-- Line 98: `mPhysicalDevice = physicalDevices[0];` — the first enumerated
device, unconditionally (`none` only when the enumeration is empty, where
the C++ indexing would be out of bounds). -/
def selectPhysicalDevice (physicalDevices : List PhysicalDevice) :
    Option PhysicalDevice :=
  physicalDevices.head?

/-- A device exposes some queue family with `VK_QUEUE_GRAPHICS_BIT` set. -/
def hasGraphicsQueueFamily (d : PhysicalDevice) : Bool :=
  d.queueFamilies.any fun p => p.queueFlags &&& VK_QUEUE_GRAPHICS_BIT != 0

/-- Lines 129-134: the selection loop
`for (mQueueFamilyIndex = 0; mQueueFamilyIndex != queueFamilyPropertiesCount;
++mQueueFamilyIndex)` breaking at the first family with
`VK_QUEUE_GRAPHICS_BIT`; when no family matches, the loop exits with
`mQueueFamilyIndex == queueFamilyPropertiesCount`. -/
def selectQueueFamilyIndex : List QueueFamilyProperties → Nat
  | [] => 0
  | p :: ps =>
      if p.queueFlags &&& VK_QUEUE_GRAPHICS_BIT != 0 then 0
      else selectQueueFamilyIndex ps + 1

/-- The fields of the `VkDeviceQueueCreateInfo` built at lines 137-142. -/
structure DeviceQueueCreateInfo where
  queueFamilyIndex : Nat
  queueCount : Nat
deriving DecidableEq

/-- Lines 129-172: after the selection loop the constructor builds the
queue create info from `mQueueFamilyIndex` and calls `vkCreateDevice`;
there is no assertion or abort between the loop and the creation call, so
this is a total function of the enumerated queue families. -/
def deviceSetup (queueFamilies : List QueueFamilyProperties) :
    DeviceQueueCreateInfo :=
  { queueFamilyIndex := selectQueueFamilyIndex queueFamilies
    queueCount := 1 }

/-! ## Swapchain format and present-mode negotiation (VkRenderer.cpp lines 213-270) -/

/-- `VK_FORMAT_R8G8B8A8_UNORM` = 37. -/
def VK_FORMAT_R8G8B8A8_UNORM : Nat := 37

/-- `VK_PRESENT_MODE_FIFO_KHR` = 2. -/
def VK_PRESENT_MODE_FIFO_KHR : Nat := 2

/-- One `VkSurfaceFormatKHR` entry reported by the device. -/
structure SurfaceFormat where
  format : Nat
  colorSpace : Nat
deriving DecidableEq

/-- First element of a list satisfying a predicate: the shape of the two
index-searching loops at lines 226-231 and 247-252, which store the first
matching index and then read the element back at that index. -/
def findFirst {α : Type} (p : α → Bool) : List α → Option α
  | [] => none
  | x :: xs => if p x then some x else findFirst p xs

/-- The swapchain-creation fields drawn from the negotiated format and
present mode (lines 255-268). -/
structure SwapchainCreateInfo where
  imageFormat : Nat
  imageColorSpace : Nat
  presentMode : Nat
deriving DecidableEq

/-- Lines 213-270 of the constructor: pick the first reported surface
format whose `format` is `VK_FORMAT_R8G8B8A8_UNORM` (lines 225-231) and
the first reported present mode equal to `VK_PRESENT_MODE_FIFO_KHR`
(lines 246-252), then build the swapchain create info from them
(lines 255-268). `none` models the `assert` at line 232 or 253 firing:
setup dies rather than substituting an alternative. -/
def swapchainSetup (surfaceFormats : List SurfaceFormat)
    (presentModes : List Nat) : Option SwapchainCreateInfo :=
  match findFirst (fun f => f.format == VK_FORMAT_R8G8B8A8_UNORM) surfaceFormats,
        findFirst (fun m => m == VK_PRESENT_MODE_FIFO_KHR) presentModes with
  | some f, some m => some ⟨f.format, f.colorSpace, m⟩
  | _, _ => none

/-! ## Owned-object lifecycle (VkRenderer.cpp constructor and destructor) -/

/-- The objects the renderer owns, one constructor per handle member. -/
inductive VkHandle
  | vkInstance
  | vkDevice
  | vkSurface
  | vkSwapchain
  | commandPool
  | commandBuffer
  | fence
  | imageAcquisitionSemaphore
  | renderCompletionSemaphore
deriving DecidableEq, Fintype

/-- Creation order in the constructor: `vkCreateInstance` line 85,
`vkCreateDevice` line 172, `vkCreateAndroidSurfaceKHR` line 183,
`vkCreateSwapchainKHR` line 270, `vkCreateCommandPool` line 291,
`vkAllocateCommandBuffers` line 303, `vkCreateFence` line 373,
`vkCreateSemaphore` lines 382 (acquisition) and 383 (completion). -/
def creationOrder : List VkHandle :=
  [VkHandle.vkInstance, VkHandle.vkDevice, VkHandle.vkSurface,
   VkHandle.vkSwapchain, VkHandle.commandPool, VkHandle.commandBuffer,
   VkHandle.fence, VkHandle.imageAcquisitionSemaphore,
   VkHandle.renderCompletionSemaphore]

/-- Destruction order in `VkRenderer::~VkRenderer` (lines 386-396):
`mImageAcquisitionSemaphore` first (line 387), then
`mRenderCompletionSemaphore` (line 388), then fence, command buffer,
command pool, swapchain, surface, device, instance. -/
def destructionOrder : List VkHandle :=
  [VkHandle.imageAcquisitionSemaphore, VkHandle.renderCompletionSemaphore,
   VkHandle.fence, VkHandle.commandBuffer, VkHandle.commandPool,
   VkHandle.vkSwapchain, VkHandle.vkSurface, VkHandle.vkDevice,
   VkHandle.vkInstance]

/-! ## Motion-event input filter (hello-vulkan main.cpp lines 37-41) -/

/-- `AINPUT_SOURCE_CLASS_MASK` = 0x000000ff. -/
def AINPUT_SOURCE_CLASS_MASK : Nat := 0xff

/-- `AINPUT_SOURCE_CLASS_POINTER` = 0x00000002. -/
def AINPUT_SOURCE_CLASS_POINTER : Nat := 2

/-- `AINPUT_SOURCE_CLASS_JOYSTICK` = 0x00000010. -/
def AINPUT_SOURCE_CLASS_JOYSTICK : Nat := 16

/-- A motion event: the `source` field the filter reads, plus further
fields the filter never touches. -/
structure GameActivityMotionEvent where
  source : Nat
  deviceId : Nat
  action : Nat
deriving DecidableEq

/-- The source class of an event: its `source` field masked with
`AINPUT_SOURCE_CLASS_MASK` (main.cpp line 38). -/
def sourceClassOf (motionEvent : GameActivityMotionEvent) : Nat :=
  motionEvent.source &&& AINPUT_SOURCE_CLASS_MASK

/-- `motion_event_filter_func` (main.cpp lines 37-41): true exactly when
the masked source class equals the pointer class or the joystick class. -/
def motionEventFilterFunc (motionEvent : GameActivityMotionEvent) : Bool :=
  let sourceClass := motionEvent.source &&& AINPUT_SOURCE_CLASS_MASK
  sourceClass == AINPUT_SOURCE_CLASS_POINTER ||
    sourceClass == AINPUT_SOURCE_CLASS_JOYSTICK

/-- The all-zero clear color: the value-initialized `mClearColorValue`
member with which the renderer starts. -/
def zeroColor : ClearColor := fun _ => 0

/-! ## Helper lemmas -/

theorem qtrunc_eq_floor (x : ℚ) (h : 0 ≤ x) : qtrunc x = ⌊x⌋ := by
  rw [Rat.floor_def]
  exact Int.tdiv_eq_ediv (Rat.num_nonneg.mpr h) (Int.natCast_nonneg _)

theorem stepChannel_eq_fract (x : ℚ) (h : 0 ≤ x) :
    stepChannel x = Int.fract (x + 1/100) := by
  have h1 : (0:ℚ) ≤ x + 1/100 := by linarith
  unfold stepChannel fmodf
  rw [div_one, one_mul, qtrunc_eq_floor _ h1, Int.fract]

theorem stepChannel_iterate (x : ℚ) (h0 : 0 ≤ x) (h1 : x < 1) (N : ℕ) :
    stepChannel^[N] x = Int.fract (x + N * (1/100)) := by
  induction N with
  | zero => simp [Int.fract_eq_self.mpr ⟨h0, h1⟩]
  | succ n ih =>
      rw [Function.iterate_succ_apply', ih,
        stepChannel_eq_fract _ (Int.fract_nonneg _)]
      have hrw : Int.fract (x + n * (1/100)) + 1/100 =
          (x + (n + 1 : ℕ) * (1/100)) - (⌊x + n * (1/100)⌋ : ℚ) := by
        rw [Int.fract]; push_cast; ring
      rw [hrw, Int.fract_sub_int]

theorem updateClearColor_iterate (c : ClearColor) (N : ℕ) (i : Fin 4) :
    (updateClearColor^[N] c) i = stepChannel^[N] (c i) := by
  induction N generalizing c with
  | zero => rfl
  | succ n ih =>
      rw [Function.iterate_succ_apply, Function.iterate_succ_apply]
      exact ih (updateClearColor c)

/-! ## Claim C1 -/

/-- Claim C1: for every natural number N and every starting clear-color
state (each channel a color value in [0,1)), invoking render N times
advances each of the four channels by exactly N × 0.01 modulo 1.0; in
particular, with step 0.01 each channel returns to its start value after
exactly 100 calls: the state recurs at call count M exactly when 100
divides M. -/
theorem clearColor_mod_advance (c : ClearColor) (N : ℕ)
    (h0 : ∀ i, 0 ≤ c i) (h1 : ∀ i, c i < 1) :
    (∀ idx, (render c idx).clearColor = updateClearColor c) ∧
    (∀ i, (updateClearColor^[N] c) i = Int.fract (c i + N * (1/100))) ∧
    updateClearColor^[100] c = c ∧
    (∀ M : ℕ, updateClearColor^[M] c = c ↔ 100 ∣ M) := by
  have hiter : ∀ (K : ℕ) (i : Fin 4),
      (updateClearColor^[K] c) i = Int.fract (c i + K * (1/100)) := by
    intro K i
    rw [updateClearColor_iterate, stepChannel_iterate _ (h0 i) (h1 i)]
  have hdvd : ∀ M : ℕ, 100 ∣ M → updateClearColor^[M] c = c := by
    rintro M ⟨k, rfl⟩
    funext i
    rw [hiter]
    have hc : ((100 * k : ℕ) : ℚ) * (1/100) = ((k : ℤ) : ℚ) := by
      push_cast; ring
    rw [hc, Int.fract_add_int, Int.fract_eq_self.mpr ⟨h0 i, h1 i⟩]
  refine ⟨fun _ => rfl, hiter N, hdvd 100 ⟨1, rfl⟩, fun M => ⟨?_, hdvd M⟩⟩
  intro hM
  have h00 : (updateClearColor^[M] c) 0 = c 0 := congrFun hM 0
  rw [hiter] at h00
  have hfr : Int.fract (c 0 + M * (1/100)) = Int.fract (c 0) := by
    rw [h00, Int.fract_eq_self.mpr ⟨h0 0, h1 0⟩]
  obtain ⟨z, hz⟩ := Int.fract_eq_fract.mp hfr
  have hq : (M : ℚ) = 100 * z := by
    field_simp at hz
    linarith
  have hzz : (M : ℤ) = 100 * z := by exact_mod_cast hq
  have : (100 : ℤ) ∣ (M : ℤ) := ⟨z, hzz⟩
  exact_mod_cast this

/-- Witness for C1 at the renderer's actual start state (all channels 0)
and N = 7. -/
theorem clearColor_mod_advance_witness :
    (0:ℚ) ≤ zeroColor 0 ∧ zeroColor 0 < 1 ∧
    updateClearColor^[100] zeroColor = zeroColor :=
  ⟨le_refl 0, zero_lt_one,
    (clearColor_mod_advance zeroColor 7 (fun _ => le_refl 0)
      (fun _ => zero_lt_one)).2.2.1⟩

/-! ## Claim C9 -/

/-- Claim C9: for every call to render, if every clear-color channel lies
in [0,1) before the call then every channel lies in [0,1) after it, and
any two channels equal before a call are equal after it (all four receive
the identical increment rule). -/
theorem render_clearColor_invariants (c : ClearColor) (idx : Nat)
    (h0 : ∀ i, 0 ≤ c i) (h1 : ∀ i, c i < 1) :
    (∀ i, 0 ≤ (render c idx).clearColor i ∧ (render c idx).clearColor i < 1) ∧
    (∀ i j, c i = c j →
      (render c idx).clearColor i = (render c idx).clearColor j) := by
  constructor
  · intro i
    have hi : (render c idx).clearColor i = Int.fract (c i + 1/100) :=
      stepChannel_eq_fract _ (h0 i)
    rw [hi]
    exact ⟨Int.fract_nonneg _, Int.fract_lt_one _⟩
  · intro i j hij
    show stepChannel (c i) = stepChannel (c j)
    rw [hij]

/-- Witness for C9 at the all-zero start state and image index 0. -/
theorem render_clearColor_invariants_witness :
    (0 ≤ (render zeroColor 0).clearColor 0 ∧
      (render zeroColor 0).clearColor 0 < 1) ∧
    (render zeroColor 0).clearColor 0 = (render zeroColor 0).clearColor 1 :=
  ⟨(render_clearColor_invariants zeroColor 0 (fun _ => le_refl 0)
      (fun _ => zero_lt_one)).1 0,
   (render_clearColor_invariants zeroColor 0 (fun _ => le_refl 0)
      (fun _ => zero_lt_one)).2 0 1 rfl⟩

/-! ## Claim C2 -/

/-- Claim C2 counterexample: `render` contains a graphics API call that can
return a non-success status whose result is ignored —
`vkResetCommandBuffer(mCommandBuffer, 0);` at VkRenderer.cpp line 420 is
not wrapped in `VK_CHECK_ERROR`. -/
theorem resetCommandBuffer_unchecked :
    ∃ call ∈ renderApiCalls, call.returnsStatus = true ∧ call.checked = false := by
  decide

/-- Claim C2 (amended): every fallible graphics API call of the renderer
except `vkResetCommandBuffer` has its status checked, and every checked
call that returns a non-success status produces a fatal log carrying the
file, line, and call expression. -/
theorem apiCalls_checked_except_reset :
    (∀ call ∈ constructorApiCalls ++ renderApiCalls ++ destructorApiCalls,
        call.returnsStatus = true →
          (call.checked = true ∨ call.name = "vkResetCommandBuffer")) ∧
    (∀ (file : String) (line : Nat) (callExpression : String) (result : Int),
        result ≠ 0 →
          vkCheckError file line callExpression result =
            Except.error ⟨file, line, callExpression, result⟩) := by
  constructor
  · decide
  · intro file line callExpression result h
    simp [vkCheckError, h]

/-- Witness for the amended C2 at `vkCreateInstance` and at a concrete
failing status. -/
theorem apiCalls_checked_except_reset_witness :
    ((⟨"vkCreateInstance", true, true⟩ : ApiCall).checked = true ∨
      (⟨"vkCreateInstance", true, true⟩ : ApiCall).name = "vkResetCommandBuffer") ∧
    vkCheckError "VkRenderer.cpp" 85 "vkCreateInstance(...)" (-3) =
      Except.error ⟨"VkRenderer.cpp", 85, "vkCreateInstance(...)", -3⟩ :=
  ⟨apiCalls_checked_except_reset.1 ⟨"vkCreateInstance", true, true⟩
      (by decide) rfl,
   apiCalls_checked_except_reset.2 "VkRenderer.cpp" 85 "vkCreateInstance(...)"
      (-3) (by decide)⟩

/-! ## Claim C3 -/

/-- Claim C3 counterexample: with enumeration result
[device with only a compute queue family, device with a graphics queue
family], setup selects the first device, which lacks a graphics-capable
queue family while the later enumerated device has one. -/
theorem selectPhysicalDevice_counterexample :
    selectPhysicalDevice [⟨[⟨2⟩]⟩, ⟨[⟨1⟩]⟩] = some ⟨[⟨2⟩]⟩ ∧
    hasGraphicsQueueFamily ⟨[⟨2⟩]⟩ = false ∧
    hasGraphicsQueueFamily ⟨[⟨1⟩]⟩ = true := by
  decide

/-- Claim C3 (amended): setup selects the first enumerated physical device
unconditionally — even when that device lacks a graphics-capable queue
family and a later enumerated device has one. -/
theorem selectPhysicalDevice_first_unconditional
    (d d' : PhysicalDevice) (rest : List PhysicalDevice)
    (h : hasGraphicsQueueFamily d = false)
    (h' : hasGraphicsQueueFamily d' = true) :
    selectPhysicalDevice (d :: d' :: rest) = some d := rfl

/-- Witness for the amended C3 at a concrete two-device enumeration. -/
theorem selectPhysicalDevice_first_unconditional_witness :
    selectPhysicalDevice [⟨[⟨4⟩]⟩, ⟨[⟨3⟩]⟩] = some ⟨[⟨4⟩]⟩ :=
  selectPhysicalDevice_first_unconditional ⟨[⟨4⟩]⟩ ⟨[⟨3⟩]⟩ []
    (by decide) (by decide)

/-! ## Claim C10 -/

/-- When no enumerated queue family has the graphics bit, the selection
loop runs to the end and leaves `mQueueFamilyIndex` equal to the family
count. -/
theorem selectQueueFamilyIndex_no_graphics (qfs : List QueueFamilyProperties)
    (h : ∀ p ∈ qfs, p.queueFlags &&& VK_QUEUE_GRAPHICS_BIT = 0) :
    selectQueueFamilyIndex qfs = qfs.length := by
  induction qfs with
  | nil => rfl
  | cons p ps ih =>
      have hp := h p (List.mem_cons_self p ps)
      simp [selectQueueFamilyIndex, hp,
        ih fun q hq => h q (List.mem_cons_of_mem p hq)]

/-- Claim C10: if the first enumerated physical device exposes no
graphics-capable queue family, the constructor's queue-family search
terminates with the selected index equal to the number of queue families
(one past the last valid index), and setup proceeds to build the logical
device's queue create info with that out-of-range index rather than
aborting at the selection step. -/
theorem queueFamilyIndex_out_of_range_proceeds
    (qfs : List QueueFamilyProperties)
    (h : ∀ p ∈ qfs, p.queueFlags &&& VK_QUEUE_GRAPHICS_BIT = 0) :
    selectQueueFamilyIndex qfs = qfs.length ∧
    (deviceSetup qfs).queueFamilyIndex = qfs.length :=
  ⟨selectQueueFamilyIndex_no_graphics qfs h,
   selectQueueFamilyIndex_no_graphics qfs h⟩

/-- Witness for C10 at a device with a single compute-only queue family. -/
theorem queueFamilyIndex_out_of_range_proceeds_witness :
    selectQueueFamilyIndex [⟨2⟩] = 1 ∧
    (deviceSetup [⟨2⟩]).queueFamilyIndex = 1 :=
  queueFamilyIndex_out_of_range_proceeds [⟨2⟩] (by decide)

/-! ## Claim C4 -/

/-- Claim C4: in every call to render the fence is waited on (the wait
returns only once the fence is signaled) and then reset strictly before
the single command buffer is reset and re-recorded: the trace of API calls
contains exactly one `vkWaitForFences`, one `vkResetFences`, one
`vkResetCommandBuffer`, and one `vkBeginCommandBuffer`, in that order,
after the acquire that arms the fence — so re-recording never begins
before the fence has been observed signaled. -/
theorem render_fence_wait_before_rerecord (c : ClearColor) (idx : Nat) :
    (render c idx).events = renderEvents ∧
    renderEvents.count REvent.waitForFences = 1 ∧
    renderEvents.count REvent.resetFences = 1 ∧
    renderEvents.count REvent.resetCommandBuffer = 1 ∧
    renderEvents.count REvent.beginCommandBuffer = 1 ∧
    eventIdx renderEvents REvent.acquireNextImage <
      eventIdx renderEvents REvent.waitForFences ∧
    eventIdx renderEvents REvent.waitForFences <
      eventIdx renderEvents REvent.resetFences ∧
    eventIdx renderEvents REvent.resetFences <
      eventIdx renderEvents REvent.resetCommandBuffer ∧
    eventIdx renderEvents REvent.resetCommandBuffer <
      eventIdx renderEvents REvent.beginCommandBuffer :=
  ⟨rfl, by decide⟩

/-! ## Claim C5 -/

/-- Claim C5 counterexample: the destructor's destruction sequence is not
the strict reverse of the creation sequence — it destroys the acquisition
semaphore (line 387) before the completion semaphore (line 388), though
the acquisition semaphore was created first (lines 382-383). -/
theorem destructionOrder_not_reverse :
    destructionOrder ≠ creationOrder.reverse := by
  decide

/-- Claim C5 (amended): the destructor releases every owned object exactly
once, and destruction follows strict reverse creation order except for the
two semaphores, which are destroyed in creation order (acquisition
semaphore first, completion semaphore second). -/
theorem destruction_near_reverse_order :
    (∀ h : VkHandle,
        destructionOrder.count h = 1 ∧ creationOrder.count h = 1) ∧
    destructionOrder.take 2 =
      [VkHandle.imageAcquisitionSemaphore,
       VkHandle.renderCompletionSemaphore] ∧
    creationOrder.reverse.take 2 =
      [VkHandle.renderCompletionSemaphore,
       VkHandle.imageAcquisitionSemaphore] ∧
    destructionOrder.drop 2 = creationOrder.reverse.drop 2 := by
  decide

/-! ## Claim C7 -/

/-- Claim C7: in every call to render, the queue submission names the
acquisition semaphore as its sole wait semaphore and the completion
semaphore as its sole signal semaphore, and the present request names the
completion semaphore as its sole wait semaphore and the acquired image
index as the image to present. -/
theorem render_semaphore_wiring (c : ClearColor) (idx : Nat) :
    (render c idx).submitInfo.waitSemaphores = [Sem.imageAcquisition] ∧
    (render c idx).submitInfo.waitSemaphoreCount = 1 ∧
    (render c idx).submitInfo.signalSemaphores = [Sem.renderCompletion] ∧
    (render c idx).submitInfo.signalSemaphoreCount = 1 ∧
    (render c idx).submitInfo.commandBufferCount = 1 ∧
    (render c idx).presentInfo.waitSemaphores = [Sem.renderCompletion] ∧
    (render c idx).presentInfo.waitSemaphoreCount = 1 ∧
    (render c idx).presentInfo.swapchainCount = 1 ∧
    (render c idx).presentInfo.imageIndices = [idx] :=
  ⟨rfl, rfl, rfl, rfl, rfl, rfl, rfl, rfl, rfl⟩

/-! ## Claim C6 -/

theorem findFirst_eq_none {α : Type} (p : α → Bool) (l : List α)
    (h : ∀ x ∈ l, p x = false) : findFirst p l = none := by
  induction l with
  | nil => rfl
  | cons x xs ih =>
      have hx := h x (List.mem_cons_self x xs)
      simp only [findFirst, hx, Bool.false_eq_true, if_false]
      exact ih fun y hy => h y (List.mem_cons_of_mem x hy)

theorem findFirst_some_decomp {α : Type} (p : α → Bool) (l : List α) (b : α)
    (h : findFirst p l = some b) :
    p b = true ∧ ∃ pre post, l = pre ++ b :: post ∧ ∀ x ∈ pre, p x = false := by
  induction l with
  | nil => simp [findFirst] at h
  | cons x xs ih =>
      by_cases hx : p x = true
      · have hxb : x = b := by
          have := h
          simp only [findFirst, hx, if_true] at this
          exact Option.some.inj this
        subst hxb
        exact ⟨hx, [], xs, rfl, by simp⟩
      · have hx' : p x = false := by simpa using hx
        have h' : findFirst p xs = some b := by
          have := h
          simpa only [findFirst, hx', Bool.false_eq_true, if_false] using this
        obtain ⟨hb, pre, post, hdec, hpre⟩ := ih h'
        refine ⟨hb, x :: pre, post, by rw [hdec]; rfl, ?_⟩
        intro y hy
        rcases List.mem_cons.mp hy with rfl | hy'
        · exact hx'
        · exact hpre y hy'

theorem findFirst_isSome_of_mem {α : Type} (p : α → Bool) (l : List α) (a : α)
    (ha : a ∈ l) (hpa : p a = true) : ∃ b, findFirst p l = some b := by
  induction l with
  | nil => cases ha
  | cons x xs ih =>
      by_cases hx : p x = true
      · exact ⟨x, by simp [findFirst, hx]⟩
      · have hx' : p x = false := by simpa using hx
        rcases List.mem_cons.mp ha with rfl | ha'
        · rw [hpa] at hx'; cases hx'
        · obtain ⟨b, hb⟩ := ih ha'
          exact ⟨b, by simp [findFirst, hx', hb]⟩

/-- Claim C6: whenever the device reports the preferred pixel format
(`VK_FORMAT_R8G8B8A8_UNORM`) among its surface formats and the strict FIFO
present mode among its present modes, setup selects exactly the first
reported format entry matching the preferred format and the FIFO present
mode; when either is absent from the reported set, setup fails fatally
(the swapchain create info is never built with a substitute). -/
theorem swapchainSetup_selects_preferred (surfaceFormats : List SurfaceFormat)
    (presentModes : List Nat) :
    ((∃ f ∈ surfaceFormats, f.format = VK_FORMAT_R8G8B8A8_UNORM) →
      VK_PRESENT_MODE_FIFO_KHR ∈ presentModes →
      ∃ g pre post,
        surfaceFormats = pre ++ g :: post ∧
        (∀ x ∈ pre, x.format ≠ VK_FORMAT_R8G8B8A8_UNORM) ∧
        g.format = VK_FORMAT_R8G8B8A8_UNORM ∧
        swapchainSetup surfaceFormats presentModes =
          some ⟨g.format, g.colorSpace, VK_PRESENT_MODE_FIFO_KHR⟩) ∧
    ((∀ f ∈ surfaceFormats, f.format ≠ VK_FORMAT_R8G8B8A8_UNORM) →
      swapchainSetup surfaceFormats presentModes = none) ∧
    (VK_PRESENT_MODE_FIFO_KHR ∉ presentModes →
      swapchainSetup surfaceFormats presentModes = none) := by
  refine ⟨?_, ?_, ?_⟩
  · rintro ⟨f, hf, hfmt⟩ hm
    obtain ⟨g, hg⟩ :=
      findFirst_isSome_of_mem (fun f => f.format == VK_FORMAT_R8G8B8A8_UNORM)
        surfaceFormats f hf (by simp [hfmt])
    obtain ⟨hpg, pre, post, hdec, hpre⟩ := findFirst_some_decomp _ _ _ hg
    obtain ⟨m, hmm⟩ :=
      findFirst_isSome_of_mem (fun m => m == VK_PRESENT_MODE_FIFO_KHR)
        presentModes VK_PRESENT_MODE_FIFO_KHR hm (by simp)
    obtain ⟨hpm, -⟩ := findFirst_some_decomp _ _ _ hmm
    have hmeq : m = VK_PRESENT_MODE_FIFO_KHR := by simpa using hpm
    refine ⟨g, pre, post, hdec, ?_, by simpa using hpg, ?_⟩
    · intro x hx
      simpa using hpre x hx
    · simp only [swapchainSetup, hg, hmm, hmeq]
  · intro hall
    have h1 : findFirst (fun f => f.format == VK_FORMAT_R8G8B8A8_UNORM)
        surfaceFormats = none :=
      findFirst_eq_none _ _ fun x hx => by simpa using hall x hx
    simp [swapchainSetup, h1]
  · intro hnm
    have h2 : findFirst (fun m => m == VK_PRESENT_MODE_FIFO_KHR)
        presentModes = none := by
      refine findFirst_eq_none _ _ fun x hx => ?_
      by_cases hx2 : x = VK_PRESENT_MODE_FIFO_KHR
      · exact absurd (hx2 ▸ hx) hnm
      · simpa using hx2
    cases h1 : findFirst (fun f => f.format == VK_FORMAT_R8G8B8A8_UNORM)
        surfaceFormats <;>
      simp [swapchainSetup, h1, h2]

/-- Witness for C6 at a concrete capability set: two reported formats
(the preferred one second) and two present modes (FIFO second). -/
theorem swapchainSetup_selects_preferred_witness :
    ∃ g pre post,
      [(⟨10, 0⟩ : SurfaceFormat), ⟨37, 5⟩] = pre ++ g :: post ∧
      (∀ x ∈ pre, x.format ≠ VK_FORMAT_R8G8B8A8_UNORM) ∧
      g.format = VK_FORMAT_R8G8B8A8_UNORM ∧
      swapchainSetup [(⟨10, 0⟩ : SurfaceFormat), ⟨37, 5⟩] [1, 2] =
        some ⟨g.format, g.colorSpace, VK_PRESENT_MODE_FIFO_KHR⟩ :=
  (swapchainSetup_selects_preferred [(⟨10, 0⟩ : SurfaceFormat), ⟨37, 5⟩]
    [1, 2]).1 (by decide) (by decide)

/-! ## Claim C8 -/

/-- Claim C8: the motion-event input filter is a pure boolean predicate on
the event's source field — it returns true exactly when the event's source
class is the pointer class or the joystick class, and its value depends
only on the source field (events agreeing on source get the same answer,
whatever their other fields). -/
theorem motionEventFilter_spec (e e' : GameActivityMotionEvent) :
    (motionEventFilterFunc e = true ↔
      (sourceClassOf e = AINPUT_SOURCE_CLASS_POINTER ∨
        sourceClassOf e = AINPUT_SOURCE_CLASS_JOYSTICK)) ∧
    (e.source = e'.source →
      motionEventFilterFunc e = motionEventFilterFunc e') := by
  constructor
  · simp [motionEventFilterFunc, sourceClassOf]
  · intro h
    simp [motionEventFilterFunc, h]

/-- Witness for C8 at a pointer-class event and an event with the same
source but different other fields. -/
theorem motionEventFilter_spec_witness :
    (motionEventFilterFunc ⟨2, 0, 0⟩ = true ↔
      (sourceClassOf ⟨2, 0, 0⟩ = AINPUT_SOURCE_CLASS_POINTER ∨
        sourceClassOf ⟨2, 0, 0⟩ = AINPUT_SOURCE_CLASS_JOYSTICK)) ∧
    motionEventFilterFunc ⟨2, 0, 0⟩ = motionEventFilterFunc ⟨2, 1, 5⟩ :=
  ⟨(motionEventFilter_spec ⟨2, 0, 0⟩ ⟨2, 1, 5⟩).1,
   (motionEventFilter_spec ⟨2, 0, 0⟩ ⟨2, 1, 5⟩).2 rfl⟩
